import Mathlib

/-!
Verification of `parallel_runner.py`: a pool of worker processes
(`PoolWorker`) pulling tasks from a shared queue under the control of an
interactive controller (`CLIController`).

The development is a shallow embedding of the Python source:

* `WorkerState` / `runStep` / `runWorker` embed the body of
  `PoolWorker.run` (lines 24-45).  The task queue `self._t` becomes a FIFO
  list, the command pipe `self._cmd` becomes a FIFO list of `Cmd`
  messages (`poll` = nonempty, `recv` = pop front), the flag `self._wait`
  is a `Bool`, the optional results queue `self._out_q` is an
  `Option (List ρ)`, and each call of `time.sleep(3)` is counted in the
  `sleeps` field.  The caller-supplied `job` is an arbitrary pure function.
* `do_enable` / `do_disable` / `do_quit` embed the controller's dispatch
  methods; a `send` on a pipe is recorded as a `(channel, message)` pair,
  and for `do_quit` a send to a worker whose process has exited raises
  (`Except.error`), as described for `CommandChannelFailure`.
* `loopIter` / `runLoop` / `listen_loop` embed `CLIController.listen_loop`
  (lines 101-167): each loop iteration is driven by an `IterEnv` record
  saying what `select`, `results_queue.get(False)` and
  `multiprocessing.active_children()` observe in that iteration; `onecmd`
  and `callback` may raise (return `false`); the `finally:` restoration of
  the terminal settings is the `restored` count; the trailing drain loop is
  `drainQueue`.
* `WStatus` / `sysStep` / `runSched` embed two concurrent workers sharing
  one task queue, at the granularity of the queue operations of
  `PoolWorker.run`: the `self._t.empty()` check and the `self._t.get()`
  call are separate atomic actions, exactly as in the source (lines 26 and
  42), and `get()` on an empty queue blocks (`WStatus.blocked`).

Effects with no observable value in the claims (echoing characters,
prompts, flushes, real sleeping, `del res`) are not modelled.
-/

/-- Command symbols carried by a worker's command pipe.  The source
compares the received value against the strings "wait", "resume" and
"end"; `Cmd.other` stands for any other received value. -/
inductive Cmd : Type where
  | wait : Cmd
  | resume : Cmd
  | end_ : Cmd
  | other : String → Cmd
deriving DecidableEq, Repr

/-- Why `PoolWorker.run` returned: the `while not self._t.empty()` guard
failed (`sourceEmpty`), or an `end` command was received (`endCmd`). -/
inductive ExitReason : Type where
  | sourceEmpty : ExitReason
  | endCmd : ExitReason
deriving DecidableEq, Repr

/-- State of one `PoolWorker` between loop iterations: the shared task
queue `self._t`, the pending messages of the command pipe `self._cmd`,
the flag `self._wait`, the optional results queue `self._out_q`, and a
count of executed `time.sleep(3)` calls. -/
structure WorkerState (τ ρ : Type) : Type where
  tasks : List τ
  cmds : List Cmd
  wait : Bool
  results : Option (List ρ)
  sleeps : Nat
deriving DecidableEq, Repr

/-- Embeds `if self._out_q is not None: self._out_q.put(res)`. -/
def pushResult {ρ : Type} (q : Option (List ρ)) (r : ρ) : Option (List ρ) :=
  match q with
  | none => none
  | some rs => some (rs ++ [r])

/-- Outcome of one iteration of the `while` loop of `PoolWorker.run`:
either the loop continues with a new state, or the method returns. -/
inductive StepResult (τ ρ : Type) : Type where
  | continue_ : WorkerState τ ρ → StepResult τ ρ
  | terminated : WorkerState τ ρ → ExitReason → StepResult τ ρ
deriving DecidableEq, Repr

/-- Embeds lines 38-45 of the source, reached when the command handling
fell through: if `self._wait` the worker sleeps 3 time units and restarts
the iteration; otherwise it pulls the task at the front of the queue
(`t`, with remainder `ts`), computes `job t` and pushes the result. -/
def waitOrPull {τ ρ : Type} (job : τ → ρ) (t : τ) (ts : List τ)
    (s : WorkerState τ ρ) : StepResult τ ρ :=
  if s.wait then
    StepResult.continue_ { s with sleeps := s.sleeps + 1 }
  else
    StepResult.continue_ { s with tasks := ts, results := pushResult s.results (job t) }

/-- One iteration of the loop of `PoolWorker.run` (lines 26-45).  The
guard `while not self._t.empty()` is checked first; then
`if self._cmd.poll(): cmd = self._cmd.recv()` consumes at most one
pending command: `wait` sets the flag and `continue`s, `resume` clears
the flag and falls through, `end` returns, and any other value falls
through with no effect. -/
def runStep {τ ρ : Type} (job : τ → ρ) (s : WorkerState τ ρ) : StepResult τ ρ :=
  match s.tasks with
  | [] => StepResult.terminated s ExitReason.sourceEmpty
  | t :: ts =>
    match s.cmds with
    | Cmd.wait :: rest => StepResult.continue_ { s with cmds := rest, wait := true }
    | Cmd.resume :: rest => waitOrPull job t ts { s with cmds := rest, wait := false }
    | Cmd.end_ :: rest => StepResult.terminated { s with cmds := rest } ExitReason.endCmd
    | Cmd.other _ :: rest => waitOrPull job t ts { s with cmds := rest }
    | [] => waitOrPull job t ts s

/-- Iterates `runStep` (the loop of `PoolWorker.run`) with explicit fuel;
`none` means the loop was still running after `fuel` iterations. -/
def runWorker {τ ρ : Type} (job : τ → ρ) :
    Nat → WorkerState τ ρ → Option (WorkerState τ ρ × ExitReason)
  | 0, _ => none
  | fuel + 1, s =>
    match runStep job s with
    | StepResult.terminated s2 r => some (s2, r)
    | StepResult.continue_ s2 => runWorker job fuel s2

/-- State of a freshly constructed `PoolWorker` (`__init__`, lines 17-22):
the given task queue and pipe content, `self._wait = True`, the given
results queue, and no sleeps yet. -/
def initWorker {τ ρ : Type} (tasks : List τ) (cmds : List Cmd)
    (outq : Option (List ρ)) : WorkerState τ ρ :=
  { tasks := tasks, cmds := cmds, wait := true, results := outq, sleeps := 0 }

/-- Rewrites the pending-command list in the state carried by a
`StepResult`; used to compare an iteration that consumed a message with
the same iteration run with no pending message. -/
def withCmds {τ ρ : Type} (cs : List Cmd) : StepResult τ ρ → StepResult τ ρ
  | StepResult.continue_ s => StepResult.continue_ { s with cmds := cs }
  | StepResult.terminated s r => StepResult.terminated { s with cmds := cs } r

/-- Claim C1, counterexample: a newly created worker with one task and an
empty command pipe has `self._wait = True`, and its first loop iteration
sleeps in the paused-backoff branch, leaving the task queue and results
untouched — it does not pull and compute a task. -/
theorem c1_counterexample :
    (initWorker [0] [] (some []) : WorkerState Nat Nat).wait = true ∧
    runStep (fun n => n + 1) (initWorker [0] [] (some []) : WorkerState Nat Nat) =
      StepResult.continue_
        { tasks := [0], cmds := [], wait := true, results := some [], sleeps := 1 } :=
  ⟨rfl, rfl⟩

/-- Claim C1, amended: for every newly created worker the initial state is
Paused (`self._wait = True`); a worker that has received no command, on
its first loop iteration over a nonempty task source, sleeps in the
paused-backoff branch and neither pulls nor computes a task. -/
theorem c1_amended (outq : Option (List Nat)) (t : Nat) (ts : List Nat)
    (job : Nat → Nat) :
    (initWorker (t :: ts) [] outq : WorkerState Nat Nat).wait = true ∧
    runStep job (initWorker (t :: ts) [] outq) =
      StepResult.continue_
        { tasks := t :: ts, cmds := [], wait := true, results := outq, sleeps := 1 } := by
  refine ⟨rfl, ?_⟩
  simp [initWorker, runStep, waitOrPull]

/-- Claim C2, counterexample: a worker in state Paused (`wait = true`)
whose task source is empty terminates with reason `sourceEmpty` on its
next iteration — the emptiness check runs, and the transition to
Terminated happens from Paused, not only from Running. -/
theorem c2_counterexample :
    runStep (fun n => n + 1)
      ({ tasks := [], cmds := [], wait := true, results := some [], sleeps := 0 } :
        WorkerState Nat Nat) =
      StepResult.terminated
        { tasks := [], cmds := [], wait := true, results := some [], sleeps := 0 }
        ExitReason.sourceEmpty :=
  rfl

/-- Claim C2, amended: a Paused iteration over a nonempty task source
sleeps the fixed backoff and restarts without pulling; but the
Task-Source emptiness check is the loop guard and runs on every
iteration, Paused included, so a Paused worker whose source is empty
transitions to Terminated. -/
theorem c2_amended (t : Nat) (ts : List Nat) (q : Option (List Nat)) (k : Nat)
    (cs : List Cmd) (job : Nat → Nat) :
    runStep job ({ tasks := t :: ts, cmds := [], wait := true, results := q, sleeps := k } :
        WorkerState Nat Nat) =
      StepResult.continue_
        { tasks := t :: ts, cmds := [], wait := true, results := q, sleeps := k + 1 } ∧
    runStep job ({ tasks := [], cmds := cs, wait := true, results := q, sleeps := k } :
        WorkerState Nat Nat) =
      StepResult.terminated
        { tasks := [], cmds := cs, wait := true, results := q, sleeps := k }
        ExitReason.sourceEmpty := by
  constructor
  · simp [runStep, waitOrPull]
  · rfl

/-- Claim C5: consuming `wait` takes a live (non-Terminated) worker to
Paused and consuming `resume` takes it to Running, whatever the previous
flag value was — so both commands are idempotent: `wait` on a Paused
worker leaves it Paused, `resume` on a Running worker leaves it Running
(and the iteration then pulls and computes the front task). -/
theorem c5_transitions (t : Nat) (ts : List Nat) (rest : List Cmd) (w : Bool)
    (q : Option (List Nat)) (k : Nat) (job : Nat → Nat) :
    runStep job (⟨t :: ts, Cmd.wait :: rest, w, q, k⟩ : WorkerState Nat Nat) =
      StepResult.continue_
        { tasks := t :: ts, cmds := rest, wait := true, results := q, sleeps := k } ∧
    runStep job (⟨t :: ts, Cmd.resume :: rest, w, q, k⟩ : WorkerState Nat Nat) =
      StepResult.continue_
        (⟨ts, rest, false, pushResult q (job t), k⟩ : WorkerState Nat Nat) := by
  constructor
  · rfl
  · simp [runStep, waitOrPull]

/-- Claim C6: a worker that consumes an `end` command, from any state
(any `wait` flag), returns immediately: the step terminates with reason
`endCmd`, the task queue is exactly as before (every unpulled task
remains available), no result is produced, and for any amount of further
fuel the loop performs no further iteration. -/
theorem c6_end_stops (t : Nat) (ts : List Nat) (rest : List Cmd) (w : Bool)
    (q : Option (List Nat)) (k : Nat) (job : Nat → Nat) (fuel : Nat) :
    runStep job (⟨t :: ts, Cmd.end_ :: rest, w, q, k⟩ : WorkerState Nat Nat) =
      StepResult.terminated
        { tasks := t :: ts, cmds := rest, wait := w, results := q, sleeps := k }
        ExitReason.endCmd ∧
    runWorker job (fuel + 1)
      (⟨t :: ts, Cmd.end_ :: rest, w, q, k⟩ : WorkerState Nat Nat) =
      some (⟨t :: ts, rest, w, q, k⟩, ExitReason.endCmd) := by
  constructor
  · rfl
  · rfl

/-- Claim C10: a worker that polls its command pipe and receives a symbol
other than `wait`, `resume` or `end` consumes it and ignores it: the
iteration's outcome is exactly the outcome of the same iteration with no
pending command (state flag unchanged, same pull or sleep), apart from
the consumed message leaving the pipe. -/
theorem c10_unknown_cmd (t : Nat) (ts : List Nat) (x : String)
    (rest : List Cmd) (w : Bool) (q : Option (List Nat)) (k : Nat)
    (job : Nat → Nat) :
    runStep job (⟨t :: ts, Cmd.other x :: rest, w, q, k⟩ : WorkerState Nat Nat) =
      withCmds rest
        (runStep job (⟨t :: ts, [], w, q, k⟩ : WorkerState Nat Nat)) := by
  by_cases hw : w
  · simp [runStep, waitOrPull, withCmds, hw]
  · simp [runStep, waitOrPull, withCmds, hw]

/-- One entry `(process, pipe-entrance)` of the controller's
`process_list`: the process name, whether the process is still alive
(sending on the pipe of an exited worker raises), and an identifier for
the pipe entrance. -/
structure RegEntry : Type where
  name : String
  alive : Bool
  chan : Nat
deriving DecidableEq, Repr

/-- Embeds `proc[1].send(msg)`: the send is recorded as a
`(channel, message)` pair, and raises (`CommandChannelFailure`) when the
worker process has already exited. -/
def sendCmd (p : RegEntry) (msg : String) : Except String (Nat × String) :=
  if p.alive then Except.ok (p.chan, msg) else Except.error p.name

/-- Embeds `CLIController.do_enable` (lines 91-94): iterate over the
process list in order and send "resume" on the pipe of every entry whose
name equals `who`.  Sends are collected as `(channel, message)` pairs;
liveness faults are out of scope here (see `do_quit` for the fallible
send). -/
def do_enable : List (String × Nat) → String → List (Nat × String)
  | [], _ => []
  | p :: rest, who =>
    if p.1 == who then (p.2, "resume") :: do_enable rest who
    else do_enable rest who

/-- Embeds `CLIController.do_disable` (lines 96-99): like `do_enable`
but sending "wait". -/
def do_disable : List (String × Nat) → String → List (Nat × String)
  | [], _ => []
  | p :: rest, who =>
    if p.1 == who then (p.2, "wait") :: do_disable rest who
    else do_disable rest who

/-- Embeds `CLIController.do_quit` (lines 83-85): send "end" to every
worker's pipe in order; the first send to an exited worker raises, and
the raise propagates out of `do_quit` immediately. -/
def do_quit : List RegEntry → Except String (List (Nat × String))
  | [] => Except.ok []
  | p :: rest =>
    match sendCmd p "end" with
    | Except.error e => Except.error e
    | Except.ok s =>
      match do_quit rest with
      | Except.error e => Except.error e
      | Except.ok ss => Except.ok (s :: ss)

/-- Claim C4: `do_enable` sends "resume" exactly on the channels of the
registry entries whose name matches, in registry order, and `do_disable`
likewise sends "wait"; when no entry matches, both are a no-op (no
channel receives a send), and a non-matching entry's channel never
receives one. -/
theorem c4_sends (pl : List (String × Nat)) (who : String) :
    do_enable pl who =
      (pl.filter fun p => p.1 == who).map (fun p => (p.2, "resume")) ∧
    do_disable pl who =
      (pl.filter fun p => p.1 == who).map (fun p => (p.2, "wait")) ∧
    ((∀ p ∈ pl, p.1 ≠ who) → do_enable pl who = [] ∧ do_disable pl who = []) := by
  refine ⟨?_, ?_, ?_⟩
  · induction pl with
    | nil => rfl
    | cons p rest ih =>
      by_cases h : p.1 == who
      · simp [do_enable, List.filter, h, ih]
      · simp [do_enable, List.filter, h, ih]
  · induction pl with
    | nil => rfl
    | cons p rest ih =>
      by_cases h : p.1 == who
      · simp [do_disable, List.filter, h, ih]
      · simp [do_disable, List.filter, h, ih]
  · intro hno
    constructor
    · induction pl with
      | nil => rfl
      | cons p rest ih =>
        have hp : p.1 ≠ who := hno p (List.mem_cons_self p rest)
        have : (p.1 == who) = false := by simpa using hp
        simp only [do_enable, this, if_neg]
        exact ih fun r hr => hno r (List.mem_cons_of_mem p hr)
    · induction pl with
      | nil => rfl
      | cons p rest ih =>
        have hp : p.1 ≠ who := hno p (List.mem_cons_self p rest)
        have : (p.1 == who) = false := by simpa using hp
        simp only [do_disable, this, if_neg]
        exact ih fun r hr => hno r (List.mem_cons_of_mem p hr)

/-- Claim C4, witness: a concrete registry where "w1" matches the first
entry only, "w3" matches nothing. -/
theorem c4_sends_witness :
    do_enable [("w1", 0), ("w2", 1)] "w1" = [(0, "resume")] ∧
    do_enable [("w1", 0), ("w2", 1)] "w3" = [] ∧
    do_disable [("w1", 0), ("w2", 1)] "w3" = [] := by
  refine ⟨?_, ?_⟩
  · have h := (c4_sends [("w1", 0), ("w2", 1)] "w1").1
    simpa using h
  · exact (c4_sends [("w1", 0), ("w2", 1)] "w3").2.2 (by decide)

/-- What one iteration of the `while True` loop of
`CLIController.listen_loop` observes from its three multiplexed sources:
the character returned by the `select`-guarded one-character read (if
any), the outcome of `results_queue.get(False)` (`none` embeds the
`queue.Empty` branch), and `len(multiprocessing.active_children())`. -/
structure IterEnv (ρ : Type) : Type where
  inputChar : Option Char
  resultAvail : Option ρ
  childrenAlive : Nat
deriving DecidableEq, Repr

/-- Outcome of one iteration of the loop body of `listen_loop`: an
uncaught exception (`raised`), the `break` when no children remain
(`broke`, carrying the results handled in that iteration), or a normal
continuation with the new line buffer and the handled results. -/
inductive IterOut (ρ : Type) : Type where
  | raised : IterOut ρ
  | broke : List ρ → IterOut ρ
  | cont : String → List ρ → IterOut ρ
deriving DecidableEq, Repr

/-- Embeds line 147: `if len(multiprocessing.active_children()) == 0:
break`, reached at the end of an iteration that raised nothing. -/
def finishIter {ρ : Type} (env : IterEnv ρ) (inp : String) (hs : List ρ) :
    IterOut ρ :=
  if env.childrenAlive = 0 then IterOut.broke hs else IterOut.cont inp hs

/-- Embeds lines 139-144: if a results queue was given, poll it without
blocking; on a result call `callback` (which may raise, `callback r =
false`); on `queue.Empty` pass. -/
def pollResults {ρ : Type} (callback : ρ → Bool) (cfg : Bool)
    (env : IterEnv ρ) (inp : String) : IterOut ρ :=
  match (if cfg then env.resultAvail else none) with
  | some r => if callback r then finishIter env inp [r] else IterOut.raised
  | none => finishIter env inp []

/-- One iteration of the loop body of `listen_loop` (lines 123-150),
driven by what the environment `env` offers: lines 124-137 read at most
one character, echo it, and on a newline dispatch the accumulated buffer
through `self.onecmd` — which may raise (`onecmd inp = false`), in which
case the exception propagates at once and the rest of the iteration does
not run — then lines 139-150 poll the results queue and check liveness. -/
def loopIter {ρ : Type} (onecmd : String → Bool) (callback : ρ → Bool)
    (cfg : Bool) (env : IterEnv ρ) (inp : String) : IterOut ρ :=
  match env.inputChar with
  | some c =>
    if c = '\n' then
      if onecmd inp then pollResults callback cfg env "" else IterOut.raised
    else pollResults callback cfg env (inp.push c)
  | none => pollResults callback cfg env inp

/-- How the `try:` block of `listen_loop` was left: via the `break`
(`normal`), via an uncaught exception (`raised`), or still running when
the environment script ran out (`fuelOut`, a modelling artifact: the
real loop only ever leaves through the other two). -/
inductive LoopExit : Type where
  | normal : LoopExit
  | raised : LoopExit
  | fuelOut : LoopExit
deriving DecidableEq, Repr

/-- Runs the `while True` loop of `listen_loop` over a script of
per-iteration environments, starting from line buffer `inp`; returns how
the loop exited and all results handled by `callback` inside the loop,
in order. -/
def runLoop {ρ : Type} (onecmd : String → Bool) (callback : ρ → Bool)
    (cfg : Bool) : List (IterEnv ρ) → String → LoopExit × List ρ
  | [], _ => (LoopExit.fuelOut, [])
  | env :: rest, inp =>
    match loopIter onecmd callback cfg env inp with
    | IterOut.raised => (LoopExit.raised, [])
    | IterOut.broke hs => (LoopExit.normal, hs)
    | IterOut.cont inp2 hs =>
      let r := runLoop onecmd callback cfg rest inp2
      (r.1, hs ++ r.2)

/-- Embeds the trailing drain of `listen_loop` (lines 162-167): keep
calling `results_queue.get(False)` and `callback` until `queue.Empty`;
returns the results on which `callback` was invoked.  If `callback`
raises on a result, that exception propagates and the drain stops there. -/
def drainQueue {ρ : Type} (callback : ρ → Bool) : List ρ → List ρ
  | [] => []
  | r :: rest =>
    if callback r then r :: drainQueue callback rest else [r]

/-- Observable outcome of a whole `listen_loop` call: how the loop
exited, the results handled during the loop, how many times the
`finally:` block restored the saved terminal settings, and the results
handled by the final drain. -/
structure ListenResult (ρ : Type) : Type where
  exit : LoopExit
  handled : List ρ
  restored : Nat
  drained : List ρ
deriving DecidableEq, Repr

/-- Embeds `CLIController.listen_loop` (lines 101-167): save the
terminal settings and go non-blocking, run the loop, restore the
settings in the `finally:` block — exactly once, on the normal and the
exceptional path alike — and afterwards, unless the loop is being left
by an exception (which propagates past the `finally`), drain the results
queue when one was given (`cfg`); `post` is the content of the results
queue when the drain starts. -/
def listen_loop {ρ : Type} (onecmd : String → Bool) (callback : ρ → Bool)
    (cfg : Bool) (envs : List (IterEnv ρ)) (post : List ρ) : ListenResult ρ :=
  let r := runLoop onecmd callback cfg envs ""
  let restored := 1
  match r.1 with
  | LoopExit.raised =>
    { exit := LoopExit.raised, handled := r.2, restored := restored, drained := [] }
  | e =>
    if cfg then
      { exit := e, handled := r.2, restored := restored,
        drained := drainQueue callback post }
    else
      { exit := e, handled := r.2, restored := restored, drained := [] }

/-- Embeds the dispatch of a completed input line by `self.onecmd`
against a registry: the line "quit" runs `do_quit` (whose send to an
exited worker raises); any other line raises nothing relevant here. -/
def dispatchLine (pl : List RegEntry) (line : String) : Bool :=
  if line = "quit" then
    match do_quit pl with
    | Except.ok _ => true
    | Except.error _ => false
  else true

/-- Claim C3, counterexample: the registry holds one worker, "w1", whose
process has already exited.  The operator types "quit" and a newline
(five iterations with a live child), and only afterwards would the
liveness check see zero children.  Dispatching the line runs `do_quit`,
whose send to the exited worker raises; the exception is not caught:
`listen_loop` exits `raised`, the remaining iteration (and its `break`)
never runs, and no drain happens — the loop is aborted by the dispatch
fault. -/
theorem c3_counterexample :
    listen_loop (dispatchLine [⟨"w1", false, 0⟩]) (fun _ => true) true
      [⟨some 'q', none, 1⟩, ⟨some 'u', none, 1⟩, ⟨some 'i', none, 1⟩,
        ⟨some 't', none, 1⟩, ⟨some '\n', none, 1⟩,
        (⟨none, none, 0⟩ : IterEnv Nat)] [] =
      { exit := LoopExit.raised, handled := [], restored := 1, drained := [] } := by
  decide

/-- Claim C3, amended: a fault raised during command dispatch is not
caught by the controller: the exception propagates out of the event
loop, which performs no further iteration; the `finally:` block still
restores the terminal settings exactly once, the drain is skipped, and
the results handled before the fault are all that were handled. -/
theorem c3_amended (onecmd : String → Bool) (callback : Nat → Bool)
    (cfg : Bool) (envs : List (IterEnv Nat)) (post : List Nat) (hs : List Nat)
    (h : runLoop onecmd callback cfg envs "" = (LoopExit.raised, hs)) :
    listen_loop onecmd callback cfg envs post =
      { exit := LoopExit.raised, handled := hs, restored := 1, drained := [] } := by
  simp [listen_loop, h]

/-- Claim C3, amended witness: dispatching the empty line raises at once;
the loop aborts with the terminal restored and the queued result 7 left
undrained. -/
theorem c3_amended_witness :
    listen_loop (fun _ => false) (fun _ => true) true
      [(⟨some '\n', none, 1⟩ : IterEnv Nat)] [7] =
      { exit := LoopExit.raised, handled := [], restored := 1, drained := [] } :=
  c3_amended (fun _ => false) (fun _ => true) true
    [(⟨some '\n', none, 1⟩ : IterEnv Nat)] [7] [] (by decide)

/-- Claim C8: on every exit path of the event loop the saved terminal
settings are restored exactly once — universally over every script,
dispatch behaviour and callback behaviour — and both the normal-break
path and the mid-iteration-exception path are realizable: a script whose
liveness check sees zero children exits `normal`, and a script whose
callback raises exits `raised`. -/
theorem c8_restore_once :
    (∀ (onecmd : String → Bool) (callback : Nat → Bool) (cfg : Bool)
      (envs : List (IterEnv Nat)) (post : List Nat),
      (listen_loop onecmd callback cfg envs post).restored = 1) ∧
    (listen_loop (fun _ => true) (fun _ => true) true
      [(⟨none, none, 0⟩ : IterEnv Nat)] ([] : List Nat)).exit = LoopExit.normal ∧
    (listen_loop (fun _ => true) (fun _ => false) true
      [(⟨none, some 5, 1⟩ : IterEnv Nat)] ([] : List Nat)).exit = LoopExit.raised := by
  refine ⟨?_, rfl, rfl⟩
  intro onecmd callback cfg envs post
  simp only [listen_loop]
  split
  · rfl
  · split <;> rfl

/-- Results are drained unchanged when `callback` raises on none of
them: the drain loop of `listen_loop` invokes the callback once per
queued result, front to back, until the queue reports empty. -/
theorem drainQueue_all {ρ : Type} (callback : ρ → Bool) (post : List ρ)
    (h : ∀ r ∈ post, callback r = true) : drainQueue callback post = post := by
  induction post with
  | nil => rfl
  | cons r rest ih =>
    have hr : callback r = true := h r (List.mem_cons_self r rest)
    simp [drainQueue, hr, ih fun x hx => h x (List.mem_cons_of_mem r hx)]

/-- Claim C9: when the event loop exits normally and a results queue is
configured, `listen_loop` drains it non-blockingly: the callback is
invoked exactly once on each result still queued at drain time, in
order, until the queue reports empty; with no results queue configured
there is no drain at all. -/
theorem c9_drain (onecmd : String → Bool) (callback : Nat → Bool)
    (envs : List (IterEnv Nat)) (post : List Nat)
    (hnorm : (runLoop onecmd callback true envs "").1 = LoopExit.normal)
    (hcb : ∀ r ∈ post, callback r = true) :
    (listen_loop onecmd callback true envs post).drained = post ∧
    (listen_loop onecmd callback false envs post).drained = [] := by
  constructor
  · simp [listen_loop, hnorm, drainQueue_all callback post hcb]
  · simp only [listen_loop]
    split
    · rfl
    · rfl

/-- Claim C9, witness: a loop that breaks at once (no children) followed
by a drain of the two queued results 7 and 8. -/
theorem c9_drain_witness :
    (listen_loop (fun _ => true) (fun _ => true) true
      [(⟨none, none, 0⟩ : IterEnv Nat)] [7, 8]).drained = [7, 8] ∧
    (listen_loop (fun _ => true) (fun _ => true) false
      [(⟨none, none, 0⟩ : IterEnv Nat)] [7, 8]).drained = [] :=
  c9_drain (fun _ => true) (fun _ => true)
    [(⟨none, none, 0⟩ : IterEnv Nat)] [7, 8] (by decide) (by decide)

/-- Position of one running worker with respect to the shared task
queue, at the granularity of the two queue operations of
`PoolWorker.run`: about to run the `self._t.empty()` guard (`atCheck`),
past a successful non-empty guard and about to run `self._t.get()`
(`atGet`), returned normally because the guard saw an empty queue
(`done`), or stuck inside a `get()` that found the queue empty
(`blocked` — `multiprocessing.Queue.get` blocks by default). -/
inductive WStatus : Type where
  | atCheck : WStatus
  | atGet : WStatus
  | done : WStatus
  | blocked : WStatus
deriving DecidableEq, Repr

/-- One atomic queue action of a worker in status `st` against the
shared queue `q`: the new status, the new queue, and the task pulled by
this action, if any.  This is the command-free, non-paused path of
`PoolWorker.run` (lines 26 and 42), whose touches of the shared queue
are exactly the emptiness guard and the pull — two separate actions. -/
def wstep {τ : Type} : WStatus → List τ → WStatus × List τ × Option τ
  | WStatus.atCheck, q =>
    if q.isEmpty then (WStatus.done, q, none) else (WStatus.atGet, q, none)
  | WStatus.atGet, t :: ts => (WStatus.atCheck, ts, some t)
  | WStatus.atGet, [] => (WStatus.blocked, [], none)
  | WStatus.done, q => (WStatus.done, q, none)
  | WStatus.blocked, q => (WStatus.blocked, q, none)

/-- Two workers sharing one task queue: the queue content, each worker's
status, and the tasks each worker has pulled so far, in pull order. -/
structure SysState (τ : Type) : Type where
  queue : List τ
  w1 : WStatus
  w1pulled : List τ
  w2 : WStatus
  w2pulled : List τ
deriving DecidableEq, Repr


/-- The OS scheduler lets worker 1 (`b = true`) or worker 2 (`b = false`)
perform its next atomic queue action; a pulled task is appended to that
worker's pulled list. -/
def sysStep {τ : Type} (b : Bool) (s : SysState τ) : SysState τ :=
  if b then
    match wstep s.w1 s.queue with
    | (st, q, none) => { s with w1 := st, queue := q }
    | (st, q, some t) => { s with w1 := st, queue := q, w1pulled := s.w1pulled ++ [t] }
  else
    match wstep s.w2 s.queue with
    | (st, q, none) => { s with w2 := st, queue := q }
    | (st, q, some t) => { s with w2 := st, queue := q, w2pulled := s.w2pulled ++ [t] }

/-- Runs a whole interleaving: the schedule lists which worker acts at
each step. -/
def runSched {τ : Type} : List Bool → SysState τ → SysState τ
  | [], s => s
  | b :: bs, s => runSched bs (sysStep b s)

/-- Both workers start at the emptiness guard with nothing pulled. -/
def initSys {τ : Type} (q0 : List τ) : SysState τ :=
  { queue := q0, w1 := WStatus.atCheck, w1pulled := [],
    w2 := WStatus.atCheck, w2pulled := [] }

/-- Everything the system still accounts for: tasks pulled by worker 1,
tasks pulled by worker 2, and tasks still queued. -/
def SysState.consumed {τ : Type} (s : SysState τ) : List τ :=
  s.w1pulled ++ s.w2pulled ++ s.queue

/-- Moving the head task of the queue to the end of the first of three
list segments is a permutation. -/
theorem perm_pull_left {τ : Type} (a b q : List τ) (t : τ) :
    (((a ++ [t]) ++ b) ++ q).Perm ((a ++ b) ++ (t :: q)) := by
  simp only [List.append_assoc, List.singleton_append]
  exact List.Perm.append_left a List.perm_middle.symm

/-- Moving the head task of the queue to the end of the middle of three
list segments is a permutation (here in fact an equality of lists). -/
theorem perm_pull_right {τ : Type} (a b q : List τ) (t : τ) :
    ((a ++ (b ++ [t])) ++ q).Perm ((a ++ b) ++ (t :: q)) := by
  simp only [List.append_assoc, List.singleton_append]
  exact List.Perm.refl _

/-- One scheduler step never creates, loses or duplicates a task: it
only moves a task from the shared queue to the acting worker's pulled
list, or moves nothing. -/
theorem consumed_sysStep {τ : Type} (b : Bool) (s : SysState τ) :
    (sysStep b s).consumed.Perm s.consumed := by
  obtain ⟨queue, w1, w1p, w2, w2p⟩ := s
  cases b with
  | true =>
    cases w1 with
    | atCheck =>
      cases queue with
      | nil => exact List.Perm.refl _
      | cons t ts => exact List.Perm.refl _
    | atGet =>
      cases queue with
      | nil => exact List.Perm.refl _
      | cons t ts => exact perm_pull_left w1p w2p ts t
    | done => exact List.Perm.refl _
    | blocked => exact List.Perm.refl _
  | false =>
    cases w2 with
    | atCheck =>
      cases queue with
      | nil => exact List.Perm.refl _
      | cons t ts => exact List.Perm.refl _
    | atGet =>
      cases queue with
      | nil => exact List.Perm.refl _
      | cons t ts => exact perm_pull_right w1p w2p ts t
    | done => exact List.Perm.refl _
    | blocked => exact List.Perm.refl _

/-- Across any whole interleaving, pulled tasks plus remaining queue are
a permutation of the starting state's account. -/
theorem consumed_runSched {τ : Type} (sched : List Bool) (s : SysState τ) :
    (runSched sched s).consumed.Perm s.consumed := by
  induction sched generalizing s with
  | nil => exact List.Perm.refl _
  | cons b bs ih => exact (ih (sysStep b s)).trans (consumed_sysStep b s)

/-- Claim C7, counterexample: with one task and two workers there is an
interleaving in which worker 2's emptiness check succeeds (the queue
still holds the task, so it proceeds to `get()`), worker 1 then pulls
the task, and worker 2's pull finds the queue empty and blocks — the
check and the pull do not act as a single atomic operation, and a pull
can come up empty after a successful non-empty check. -/
theorem c7_counterexample :
    runSched [true, false, true, false] (initSys [5]) =
      (⟨[], WStatus.atCheck, [5], WStatus.blocked, []⟩ : SysState Nat) := by
  decide

/-- Claim C7, amended: the pull itself is atomic, so across every
interleaving of two workers the pulled tasks plus the remaining queue
are a permutation of the enqueued tasks — no task is lost or duplicated,
and with distinct tasks each is pulled by at most one worker — but the
emptiness check and the pull are two separate operations, and a worker's
pull can find the queue empty (and block) after that worker's own
successful non-empty check. -/
theorem c7_amended :
    (∀ (τ : Type) (sched : List Bool) (q0 : List τ),
      ((runSched sched (initSys q0)).consumed).Perm q0) ∧
    (∀ (sched : List Bool) (q0 : List Nat), q0.Nodup →
      ((runSched sched (initSys q0)).w1pulled ++
        (runSched sched (initSys q0)).w2pulled).Nodup) ∧
    (runSched [true, false, true, false] (initSys [5])).w2 = WStatus.blocked := by
  refine ⟨?_, ?_, ?_⟩
  · intro τ sched q0
    exact consumed_runSched sched (initSys q0)
  · intro sched q0 hnd
    have hperm : ((runSched sched (initSys q0)).consumed).Perm q0 :=
      consumed_runSched sched (initSys q0)
    have hall : ((runSched sched (initSys q0)).consumed).Nodup :=
      (List.Perm.nodup_iff hperm).mpr hnd
    exact List.Nodup.of_append_left hall
  · decide

/-- Claim C7, amended witness: the blocking schedule run on the
one-task queue, whose single task is trivially distinct. -/
theorem c7_amended_witness :
    ((runSched [true, false, true, false] (initSys [5])).consumed).Perm [5] ∧
    ((runSched [true, false, true, false] (initSys [5])).w1pulled ++
      (runSched [true, false, true, false] (initSys [5])).w2pulled).Nodup :=
  ⟨c7_amended.1 Nat [true, false, true, false] [5],
    c7_amended.2.1 [true, false, true, false] [5] (by decide)⟩
